import Mathlib

/-!
# Verification of the StrichBot scheduling / storage / monitoring core

Shallow embedding of the JavaScript source of the repository:

* `src/lib/scheduler.js`          — `parseTime`, `dayToCronNumber`,
  `generateDailyCron`, `validateCronExpression`
* `src/unnamed/part_011`          — `matchesSchedule` (unified scheduler endpoint)
* `src/lib/keyMonitor.js`         — `checkKeyExpiration`, `getUrgencyLevel`
* `src/lib/telegram.js`           — `getTrendIndicator`
* `src/unnamed/part_007`          — database-backed data store (`storeStats`,
  `loadStats`, `loadStatsRange`, `cleanupOldData`, `exportToCSV`, `formatDate`)
* `src/unnamed/part_006`          — file-backed data store (`storeStats`,
  `loadStats`, `loadStatsRange`, `getFilename`)

Modelling conventions:

* A JavaScript number that can be `NaN` is modelled as `Option Int`
  (`none` = `NaN`/`undefined`); exact integers are `Int`; the one fractional
  metric (`totalCapacity`) is `ℚ`.
* `String.prototype.split` with a one-character separator is modelled by
  `jsSplit`; `parseInt(x, 10)` by `jsParseInt` (leading whitespace, optional
  sign, longest digit prefix, `NaN` if no digit); `Number(x)` on the plain
  digit strings that occur here by `jsNumber`.
* Falsy-coalescing `x || d` on strings is modelled by `jsOrStr` (empty string
  is falsy), on nullable numbers by `jsOrNullInt` (`0`, `null` are falsy).
* JS `Date` values that carry only a calendar day are the structure `JSDate`
  (`getFullYear` / 0-based `getMonth` / `getDate`); instants are epoch
  milliseconds (`Int`).  Calendar day arithmetic (`setDate`) is exact via the
  civil-calendar ordinal (`toOrdinal` / `ofOrdinal`).  The runtime is assumed
  to be on UTC (the deployment platform of the source runs UTC), so local and
  UTC accessors coincide.
* SQL `ORDER BY date ASC` / `BETWEEN` / `date < ?` compare `YYYY-MM-DD`
  strings; string comparison is the lexicographic `strLt` below.
-/

/-! ## JavaScript primitive models -/

def splitOnCharAux (sep : Char) : List Char → List Char → List (List Char)
  | [], acc => [acc.reverse]
  | c :: cs, acc =>
    if c = sep then acc.reverse :: splitOnCharAux sep cs []
    else splitOnCharAux sep cs (c :: acc)

/-- JS `s.split(sep)` for a single-character separator. -/
def jsSplit (s : String) (sep : Char) : List String :=
  (splitOnCharAux sep s.data []).map String.mk

def jsDigitVal (c : Char) : Nat := c.toNat - 48

/-- Value of the longest leading digit run; `none` when there is no digit
(JS `parseInt` yields `NaN` then). -/
def digitsValue (cs : List Char) : Option Int :=
  let ds := cs.takeWhile Char.isDigit
  if ds = [] then none
  else some ((ds.foldl (fun a c => a * 10 + jsDigitVal c) 0 : Nat) : Int)

/-- JS `parseInt(s, 10)`: skip leading whitespace, optional sign, longest
digit prefix; `NaN` (= `none`) if no digit follows. -/
def jsParseInt (s : String) : Option Int :=
  match s.data.dropWhile Char.isWhitespace with
  | [] => none
  | c :: rest =>
    if c = '-' then (digitsValue rest).map (fun n => -n)
    else if c = '+' then digitsValue rest
    else digitsValue (c :: rest)

/-- JS `Number(s)` restricted to the inputs that occur in the schedule code:
the whole string must be digits (`""` is `0`), otherwise `NaN` (= `none`). -/
def jsNumber (s : String) : Option Int :=
  if s.data.all Char.isDigit then
    some ((s.data.foldl (fun a c => a * 10 + jsDigitVal c) 0 : Nat) : Int)
  else none

/-- JS `s.toLowerCase()` (ASCII contents only in this code base). -/
def jsToLower (s : String) : String := String.mk (s.data.map Char.toLower)

/-- JS `Array.prototype.join(sep)`. -/
def jsJoin (sep : String) : List String → String
  | [] => ""
  | x :: xs => xs.foldl (fun a s => a ++ sep ++ s) x

/-- JS `String(n).padStart(2, '0')` for the 0–99 values appearing here. -/
def pad2 (n : Nat) : String :=
  if n < 10 then "0" ++ toString n else toString n

/-- JS `s || d` for strings: the empty string is falsy. -/
def jsOrStr (s d : String) : String := if s = "" then d else s

/-- JS `v || null` for a nullable number: `0` and `null` are falsy and give
`null`. -/
def jsOrNullInt (v : Option Int) : Option Int :=
  match v with
  | some n => if n = 0 then none else some n
  | none => none

/-- JS `` `${v || ''}` `` for a nullable number: `0` and `null` render as the
empty string. -/
def jsOrEmptyStr (v : Option Int) : String :=
  match v with
  | some n => if n = 0 then "" else toString n
  | none => ""

/-- JS template interpolation of a possibly-`NaN` number. -/
def jsNumToStr (v : Option Int) : String :=
  match v with
  | some n => toString n
  | none => "NaN"

/-- Lexicographic order on the character lists of two strings; this is the JS
`<` on strings and the collation SQL uses on the `YYYY-MM-DD` date column. -/
def charListLt : List Char → List Char → Bool
  | [], [] => false
  | [], _ :: _ => true
  | _ :: _, [] => false
  | a :: as, b :: bs =>
    if a < b then true else if b < a then false else charListLt as bs

def strLt (a b : String) : Bool := charListLt a.data b.data

/-! ## Calendar model

`JSDate` carries what the source reads off a `Date` holding a calendar day:
`getFullYear()`, 0-based `getMonth()`, `getDate()`.  `toOrdinal`/`ofOrdinal`
are the standard civil-calendar conversions (days since 1970-01-01), used to
model the exact day arithmetic JS `setDate` performs. -/

structure JSDate where
  year : Int
  month0 : Nat
  day : Nat
deriving DecidableEq, Repr

/-- Days since 1970-01-01 of a civil date (Gregorian, proleptic). -/
def daysFromCivil (y : Int) (m : Int) (d : Int) : Int :=
  let y := if m ≤ 2 then y - 1 else y
  let era := (if 0 ≤ y then y else y - 399) / 400
  let yoe := y - era * 400
  let mp := if 2 < m then m - 3 else m + 9
  let doy := (153 * mp + 2) / 5 + d - 1
  let doe := yoe * 365 + yoe / 4 - yoe / 100 + doy
  era * 146097 + doe - 719468

def toOrdinal (d : JSDate) : Int :=
  daysFromCivil d.year (d.month0 + 1) d.day

/-- Civil date of a day count since 1970-01-01. -/
def ofOrdinal (z : Int) : JSDate :=
  let z := z + 719468
  let era := (if 0 ≤ z then z else z - 146096) / 146097
  let doe := z - era * 146097
  let yoe := (doe - doe / 1460 + doe / 36524 - doe / 146096) / 365
  let y := yoe + era * 400
  let doy := doe - (365 * yoe + yoe / 4 - yoe / 100)
  let mp := (5 * doy + 2) / 153
  let d := doy - (153 * mp + 2) / 5 + 1
  let m := if mp < 10 then mp + 3 else mp - 9
  { year := if m ≤ 2 then y + 1 else y, month0 := (m - 1).toNat, day := d.toNat }

/-- JS `date.setDate(date.getDate() + k)`: exact calendar-day arithmetic. -/
def addDays (d : JSDate) (k : Int) : JSDate := ofOrdinal (toOrdinal d + k)

/-- The loop step `currentDate.setDate(currentDate.getDate() + 1)`. -/
def nextDay (d : JSDate) : JSDate := addDays d 1

/-- JS `Date` comparison `cur <= end` for midnight dates. -/
def dateLE (a b : JSDate) : Bool := decide (toOrdinal a ≤ toOrdinal b)

def isLeapYear (y : Int) : Bool :=
  y % 4 = 0 && (y % 100 ≠ 0 || y % 400 = 0)

/-- Number of days of 1-based month `month1` of `year`; models
`new Date(year, month1, 0).getUTCDate()` on a UTC runtime. -/
def daysInMonth1 (year : Int) (month1 : Int) : Int :=
  if month1 = 2 then (if isLeapYear year then 29 else 28)
  else if month1 = 4 ∨ month1 = 6 ∨ month1 = 9 ∨ month1 = 11 then 30
  else 31

/-! ## `src/lib/scheduler.js` -/

/-- Result object of `parseTime` (`{ minute, hour }`). -/
structure TimeParts where
  minute : Option Int
  hour : Option Int
deriving DecidableEq, Repr

/-- `parseTime(time)`: split on `:` and `parseInt` both segments; the code
performs no range or numeric validation (`src/lib/scheduler.js:13-16`). -/
def parseTime (time : String) : TimeParts :=
  let parts := (jsSplit time ':').map jsParseInt
  { hour := parts.getD 0 none, minute := parts.getD 1 none }

/-- `schedule.dayOfMonth`: an integer or the string `'last'`. -/
inductive DomVal where
  | last : DomVal
  | num : Int → DomVal
deriving DecidableEq, Repr

/-- The declarative per-category schedule object read by both
`generateDailyCron` and `matchesSchedule`. -/
structure Schedule where
  enabled : Bool
  time : String
  days : Option (List String) := none
  dayOfWeek : Option String := none
  dayOfMonth : Option DomVal := none
  date : Option String := none
deriving DecidableEq, Repr

/-- `dayToCronNumber(day)`: lookup in the full/short weekday table, with the
source's `|| 0` fallback for unknown names (`src/lib/scheduler.js:23-34`). -/
def dayToCronNumber (day : String) : Int :=
  let l := jsToLower day
  if l = "sunday" ∨ l = "sun" then 0
  else if l = "monday" ∨ l = "mon" then 1
  else if l = "tuesday" ∨ l = "tue" then 2
  else if l = "wednesday" ∨ l = "wed" then 3
  else if l = "thursday" ∨ l = "thu" then 4
  else if l = "friday" ∨ l = "fri" then 5
  else if l = "saturday" ∨ l = "sat" then 6
  else 0

/-- `generateDailyCron(schedule)` (`src/lib/scheduler.js:41-54`). -/
def generateDailyCron (schedule : Schedule) : Option String :=
  if !schedule.enabled then none
  else
    let t := parseTime schedule.time
    match schedule.days with
    | some days =>
      if 0 < days.length then
        some (jsNumToStr t.minute ++ " " ++ jsNumToStr t.hour ++ " * * " ++
          jsJoin "," (days.map (fun d => toString (dayToCronNumber d))))
      else
        some (jsNumToStr t.minute ++ " " ++ jsNumToStr t.hour ++ " * * *")
    | none =>
      some (jsNumToStr t.minute ++ " " ++ jsNumToStr t.hour ++ " * * *")

/-- The inner `isValidRange` of `validateCronExpression`: `*` passes,
otherwise `parseInt` must give an in-range number
(`src/lib/scheduler.js:191-196`). -/
def isValidRange (value : String) (lo hi : Int) : Bool :=
  if value = "*" then true
  else
    match jsParseInt value with
    | none => false
    | some n => decide (lo ≤ n) && decide (n ≤ hi)

/-- `validateCronExpression(expr)` (`src/lib/scheduler.js:183-205`):
`trim().split(/\s+/)` is modelled as splitting on spaces and dropping empty
fragments. -/
def validateCronExpression (cronExpression : String) : Bool :=
  let parts := (jsSplit cronExpression ' ').filter (fun p => p ≠ "")
  match parts with
  | [minute, hour, day, month, dayOfWeek] =>
    isValidRange minute 0 59 && isValidRange hour 0 23 &&
    isValidRange day 1 31 && isValidRange month 1 12 &&
    isValidRange dayOfWeek 0 6
  | _ => false

/-! ## `src/unnamed/part_011` — unified scheduler `matchesSchedule` -/

/-- What `matchesSchedule` reads off `now`: `getUTCHours`, `getUTCMinutes`,
`getUTCDay`, `getUTCDate`, `getUTCMonth` (0-based), `getUTCFullYear`. -/
structure UTCNow where
  utcHours : Int
  utcMinutes : Int
  utcDay : Int
  utcDate : Int
  utcMonth0 : Int
  utcFullYear : Int
deriving DecidableEq, Repr

/-- The short-name weekday map of the daily branch (`{sun:0, …, sat:6}`);
unknown names are `undefined` (= `none`). -/
def dayMapShort (d : String) : Option Int :=
  if d = "sun" then some 0
  else if d = "mon" then some 1
  else if d = "tue" then some 2
  else if d = "wed" then some 3
  else if d = "thu" then some 4
  else if d = "fri" then some 5
  else if d = "sat" then some 6
  else none

/-- The full-name weekday map of the weekly branch. -/
def dayMapLong (d : String) : Option Int :=
  if d = "sunday" then some 0
  else if d = "monday" then some 1
  else if d = "tuesday" then some 2
  else if d = "wednesday" then some 3
  else if d = "thursday" then some 4
  else if d = "friday" then some 5
  else if d = "saturday" then some 6
  else none

/-- `matchesSchedule(schedule, now)` (`src/unnamed/part_011:14-70`).  Note the
guard of the source: `if (currentHour !== schedHour || currentMinute !== 0)
return false;` — the minute parsed from `schedule.time` is never compared. -/
def matchesSchedule (schedule : Schedule) (now : UTCNow) : Bool :=
  if !schedule.enabled then false
  else
    let parts := jsSplit schedule.time ':'
    let schedHour := jsNumber (parts.getD 0 "")
    let currentMonth := now.utcMonth0 + 1
    if !(schedHour = some now.utcHours ∧ now.utcMinutes = 0) then false
    else
      let daysOk :=
        match schedule.days with
        | none => true
        | some ds => (ds.map dayMapShort).contains (some now.utcDay)
      let dowOk :=
        match schedule.dayOfWeek with
        | none => true
        | some d => dayMapLong (jsToLower d) = some now.utcDay
      let domOk :=
        match schedule.dayOfMonth with
        | none => true
        | some DomVal.last =>
          now.utcDate = daysInMonth1 now.utcFullYear currentMonth
        | some (DomVal.num n) => now.utcDate = n
      let dateOk :=
        match schedule.date with
        | none => true
        | some dstr =>
          let dp := jsSplit dstr '-'
          let tm :=
            if dp.length = 3 then jsParseInt (dp.getD 1 "")
            else if dp.length = 2 then jsParseInt (dp.getD 0 "")
            else none
          let td :=
            if dp.length = 3 then jsParseInt (dp.getD 2 "")
            else if dp.length = 2 then jsParseInt (dp.getD 1 "")
            else none
          (some currentMonth = tm) && (some now.utcDate = td)
      daysOk && dowOk && domOk && dateOk

/-! ## `src/lib/keyMonitor.js` -/

abbrev msPerDay : Int := 24 * 60 * 60 * 1000

/-- `Math.ceil(a / b)` for integer `a` and positive integer `b`
(the ceiling of the exact rational quotient). -/
def ceilDiv (a b : Int) : Int := -((-a).fdiv b)

/-- `getUrgencyLevel(days)` (`src/lib/keyMonitor.js:83-88`). -/
def getUrgencyLevel (days : Int) : String :=
  if days ≤ 1 then "critical"
  else if days ≤ 3 then "high"
  else if days ≤ 7 then "medium"
  else "low"

/-- The fields of the object `checkKeyExpiration` returns (success path). -/
structure ExpiryCheckResult where
  shouldWarn : Bool
  daysUntilExpiry : Option Int
  urgency : Option String
  expired : Bool
deriving DecidableEq, Repr

/-- `checkKeyExpiration(expiryDate, warningDays)` on a valid expiry date
(`src/lib/keyMonitor.js:14-76`), with `now` made explicit and instants as
epoch milliseconds.  The source's `if (warningDay)` is a JS truthiness test,
so a found threshold of `0` falls through to the expired check. -/
def checkKeyExpiration (expiryMs nowMs : Int)
    (warningDays : List Int := [7, 3, 1]) : ExpiryCheckResult :=
  let daysUntilExpiry := ceilDiv (expiryMs - nowMs) msPerDay
  match warningDays.find? (fun days => daysUntilExpiry == days) with
  | some warningDay =>
    if warningDay ≠ 0 then
      { shouldWarn := true, daysUntilExpiry := some warningDay,
        urgency := some (getUrgencyLevel warningDay), expired := false }
    else if daysUntilExpiry < 0 then
      { shouldWarn := true, daysUntilExpiry := some 0,
        urgency := some "expired", expired := true }
    else
      { shouldWarn := false, daysUntilExpiry := some daysUntilExpiry,
        urgency := none, expired := false }
  | none =>
    if daysUntilExpiry < 0 then
      { shouldWarn := true, daysUntilExpiry := some 0,
        urgency := some "expired", expired := true }
    else
      { shouldWarn := false, daysUntilExpiry := some daysUntilExpiry,
        urgency := none, expired := false }

/-! ## `src/lib/telegram.js` — trend classification -/

/-- `getTrendIndicator(percentageChange)` (`src/lib/telegram.js:262-268`).
Emoji buckets: `🚀` strong growth, `📈` growth, `📉` strong decline,
`📊` decline, `➡️` flat. -/
def getTrendIndicator (percentageChange : ℚ) : String :=
  if percentageChange > 5 then "🚀"
  else if percentageChange > 0 then "📈"
  else if percentageChange < -5 then "📉"
  else if percentageChange < 0 then "📊"
  else "➡️"

/-! ## `src/unnamed/part_007` — database-backed data store -/

/-- `formatDate(date)` (`src/unnamed/part_007:15-20`). -/
def formatDate (d : JSDate) : String :=
  toString d.year ++ "-" ++ pad2 (d.month0 + 1) ++ "-" ++ pad2 d.day

/-- The snapshot object handed to `storeStats`, which is also the shape
`loadStats` returns. -/
structure Stats where
  timestamp : String
  memberCount : Int
  totalChannels : Int
  totalCapacity : ℚ
  blockHeight : Option Int
  source : String
deriving DecidableEq, Repr

/-- One row of the `historical_stats` table. -/
structure DbRow where
  timestamp : String
  member_count : Int
  total_channels : Int
  total_capacity : ℚ
  block_height : Option Int
  source : String
deriving DecidableEq, Repr

/-- `INSERT … ON DUPLICATE KEY UPDATE` keyed on the `date` column. -/
def dbUpsert (store : List (String × DbRow)) (key : String) (row : DbRow) :
    List (String × DbRow) :=
  if store.any (fun kv => kv.1 = key) then
    store.map (fun kv => if kv.1 = key then (key, row) else kv)
  else
    store ++ [(key, row)]

/-- `storeStats(stats, date)` of the database store
(`src/unnamed/part_007:28-70`); `nowIso` is the `new Date().toISOString()`
used for the `timestamp` default. -/
def storeStats_db (store : List (String × DbRow)) (stats : Stats)
    (date : JSDate) (nowIso : String) : List (String × DbRow) :=
  dbUpsert store (formatDate date)
    { timestamp := jsOrStr stats.timestamp nowIso,
      member_count := stats.memberCount,
      total_channels := stats.totalChannels,
      total_capacity := stats.totalCapacity,
      block_height := jsOrNullInt stats.blockHeight,
      source := jsOrStr stats.source "Amboss.space" }

/-- `loadStats(date)` of the database store (`src/unnamed/part_007:77-99`):
`SELECT * … WHERE date = ?` then rename the columns back to camelCase. -/
def loadStats_db (store : List (String × DbRow)) (date : JSDate) :
    Option Stats :=
  (store.find? (fun kv => kv.1 = formatDate date)).map (fun kv =>
    { timestamp := kv.2.timestamp,
      memberCount := kv.2.member_count,
      totalChannels := kv.2.total_channels,
      totalCapacity := kv.2.total_capacity,
      blockHeight := kv.2.block_height,
      source := kv.2.source })

/-- A row of the `loadStatsRange` result of the database store: the stats
columns plus the `date` column. -/
structure RangeRowD where
  date : String
  timestamp : String
  memberCount : Int
  totalChannels : Int
  totalCapacity : ℚ
  blockHeight : Option Int
  source : String
deriving DecidableEq, Repr

def insertRowByDate (r : String × DbRow) :
    List (String × DbRow) → List (String × DbRow)
  | [] => [r]
  | x :: xs => if strLt x.1 r.1 then x :: insertRowByDate r xs else r :: x :: xs

/-- `ORDER BY date ASC` of the SQL engine, as an insertion sort on the
lexicographic date-string order. -/
def sortRowsByDate : List (String × DbRow) → List (String × DbRow)
  | [] => []
  | x :: xs => insertRowByDate x (sortRowsByDate xs)

/-- `loadStatsRange(startDate, endDate)` of the database store
(`src/unnamed/part_007:107-130`): `WHERE date BETWEEN ? AND ? ORDER BY date
ASC`, columns renamed back to camelCase. -/
def loadStatsRange_db (store : List (String × DbRow)) (startD endD : JSDate) :
    List RangeRowD :=
  let startStr := formatDate startD
  let endStr := formatDate endD
  let rows := sortRowsByDate (store.filter (fun kv =>
    !strLt kv.1 startStr && !strLt endStr kv.1))
  rows.map (fun kv =>
    { date := kv.1,
      timestamp := kv.2.timestamp,
      memberCount := kv.2.member_count,
      totalChannels := kv.2.total_channels,
      totalCapacity := kv.2.total_capacity,
      blockHeight := kv.2.block_height,
      source := kv.2.source })

/-- `cleanupOldData()` of the database store (`src/unnamed/part_007:152-171`):
cutoff is `today` minus `retentionDays` calendar days, the SQL delete removes
rows with `date < cutoff`, and `affectedRows` is returned.  The result is the
pair (remaining store, deleted count). -/
def cleanupOldData_db (store : List (String × DbRow)) (today : JSDate)
    (retentionDays : Int) : List (String × DbRow) × Nat :=
  let cutoffStr := formatDate (addDays today (-retentionDays))
  (store.filter (fun kv => !strLt kv.1 cutoffStr),
   (store.filter (fun kv => strLt kv.1 cutoffStr)).length)

/-- `exportToCSV(startDate, endDate)` of the database store
(`src/unnamed/part_007:239-279`). -/
def exportToCSV_db (store : List (String × DbRow)) (startD endD : JSDate) :
    String :=
  let stats := loadStatsRange_db store startD endD
  if stats.isEmpty then "No data available for the specified date range"
  else
    let headers := ["Date", "Timestamp", "Member Count", "Total Channels",
      "Total Capacity (BTC)", "Block Height", "Source"]
    let rows := stats.map (fun st =>
      [st.date, st.timestamp, toString st.memberCount,
       toString st.totalChannels, toString st.totalCapacity,
       jsOrEmptyStr st.blockHeight, st.source])
    jsJoin "\n" ((headers :: rows).map (fun row =>
      jsJoin "," (row.map (fun field => "\"" ++ field ++ "\""))))

/-! ## `src/unnamed/part_006` — file-backed data store -/

/-- `getFilename(date)` (`src/unnamed/part_006:30-35`): note the `.json`
extension is part of the produced name. -/
def getFilename (d : JSDate) : String :=
  toString d.year ++ "-" ++ pad2 (d.month0 + 1) ++ "-" ++ pad2 d.day ++ ".json"

/-- The JSON object `storeStats` of the file store writes to disk
(it additionally records `storedAt`). -/
structure FileData where
  timestamp : String
  memberCount : Int
  totalChannels : Int
  totalCapacity : ℚ
  blockHeight : Option Int
  source : String
  storedAt : String
deriving DecidableEq, Repr

def fileUpsert (store : List (String × FileData)) (key : String)
    (row : FileData) : List (String × FileData) :=
  if store.any (fun kv => kv.1 = key) then
    store.map (fun kv => if kv.1 = key then (key, row) else kv)
  else
    store ++ [(key, row)]

/-- `storeStats(stats, date)` of the file store
(`src/unnamed/part_006:52-79`): `fs.writeFile` overwrites the per-date file. -/
def storeStats_file (store : List (String × FileData)) (stats : Stats)
    (date : JSDate) (nowIso : String) : List (String × FileData) :=
  fileUpsert store (getFilename date)
    { timestamp := jsOrStr stats.timestamp nowIso,
      memberCount := stats.memberCount,
      totalChannels := stats.totalChannels,
      totalCapacity := stats.totalCapacity,
      blockHeight := jsOrNullInt stats.blockHeight,
      source := jsOrStr stats.source "Amboss.space",
      storedAt := nowIso }

/-- `loadStats(date)` of the file store (`src/unnamed/part_006:87-99`):
returns the parsed stored JSON (including `storedAt`), `null` when the file
is absent. -/
def loadStats_file (store : List (String × FileData)) (date : JSDate) :
    Option FileData :=
  (store.find? (fun kv => kv.1 = getFilename date)).map (fun kv => kv.2)

/-- A row of the `loadStatsRange` result of the file store:
`{ date: getFilename(currentDate), ...stats }`, so the `date` carries the
`.json` extension and the spread copies `storedAt` along. -/
structure RangeRowF where
  date : String
  timestamp : String
  memberCount : Int
  totalChannels : Int
  totalCapacity : ℚ
  blockHeight : Option Int
  source : String
  storedAt : String
deriving DecidableEq, Repr

def rangeRowOfFile (d : JSDate) (f : FileData) : RangeRowF :=
  { date := getFilename d,
    timestamp := f.timestamp,
    memberCount := f.memberCount,
    totalChannels := f.totalChannels,
    totalCapacity := f.totalCapacity,
    blockHeight := f.blockHeight,
    source := f.source,
    storedAt := f.storedAt }

/-- The `while (currentDate <= endDate)` loop of the file store's
`loadStatsRange`, with the iteration count supplied as fuel (the loop runs
exactly `toOrdinal endD - toOrdinal startD + 1` times on valid dates). -/
def loadStatsRangeAuxF (store : List (String × FileData)) :
    JSDate → JSDate → Nat → List RangeRowF
  | _, _, 0 => []
  | cur, endD, fuel + 1 =>
    if dateLE cur endD then
      (match loadStats_file store cur with
       | some stats => [rangeRowOfFile cur stats]
       | none => []) ++ loadStatsRangeAuxF store (nextDay cur) endD fuel
    else []

/-- `loadStatsRange(startDate, endDate)` of the file store
(`src/unnamed/part_006:106-127`). -/
def loadStatsRange_file (store : List (String × FileData))
    (startD endD : JSDate) : List RangeRowF :=
  loadStatsRangeAuxF store startD endD ((toOrdinal endD - toOrdinal startD).toNat + 1)

/-- Projection of a database range row onto the stats fields shared by both
backends (used to compare the two implementations). -/
def commonOfD (r : RangeRowD) : Stats :=
  { timestamp := r.timestamp, memberCount := r.memberCount,
    totalChannels := r.totalChannels, totalCapacity := r.totalCapacity,
    blockHeight := r.blockHeight, source := r.source }

/-- Projection of a file range row onto the shared stats fields. -/
def commonOfF (r : RangeRowF) : Stats :=
  { timestamp := r.timestamp, memberCount := r.memberCount,
    totalChannels := r.totalChannels, totalCapacity := r.totalCapacity,
    blockHeight := r.blockHeight, source := r.source }

/-! ## Concrete fixtures used by the claim theorems -/

/-- An enabled schedule configured for 16:30 with no day constraint. -/
def sched1630 : Schedule := { enabled := true, time := "16:30" }

/-- An enabled schedule configured for 16:00 with no day constraint. -/
def sched1600 : Schedule := { enabled := true, time := "16:00" }

/-- 2025-01-15 16:30 UTC (a Wednesday). -/
def now163000 : UTCNow :=
  { utcHours := 16, utcMinutes := 30, utcDay := 3, utcDate := 15,
    utcMonth0 := 0, utcFullYear := 2025 }

/-- 2025-01-15 16:00 UTC (a Wednesday). -/
def now160000 : UTCNow :=
  { utcHours := 16, utcMinutes := 0, utcDay := 3, utcDate := 15,
    utcMonth0 := 0, utcFullYear := 2025 }

/-- The daily schedule of the spec's example: 16:30 on Monday and Tuesday. -/
def demoDaily : Schedule :=
  { enabled := true, time := "16:30", days := some ["mon", "tue"] }

/-- A snapshot whose `blockHeight` is exactly `0`. -/
def statsBh0 : Stats :=
  { timestamp := "2024-01-15T12:00:00.000Z", memberCount := 100,
    totalChannels := 50, totalCapacity := 21, blockHeight := some 0,
    source := "Amboss.space" }

/-- A fully truthy snapshot with a non-zero block height. -/
def statsFull : Stats :=
  { timestamp := "2024-01-15T12:00:00.000Z", memberCount := 100,
    totalChannels := 50, totalCapacity := 21, blockHeight := some 800000,
    source := "Amboss.space" }

/-- 2024-01-15. -/
def demoDate : JSDate := { year := 2024, month0 := 0, day := 15 }

/-- A `historical_stats` row whose stored `block_height` is `0`. -/
def rowBh0 : DbRow :=
  { timestamp := "2024-01-15T12:00:00.000Z", member_count := 100,
    total_channels := 50, total_capacity := 21, block_height := some 0,
    source := "Amboss.space" }

/-- A zero-padded `HH:MM` string built from the (hour, minute) pair used to
construct it (the round-trip counterpart of `parseTime`). -/
def mkTimeString (h m : Nat) : String := pad2 h ++ ":" ++ pad2 m

/-- The row `storeStats` of the database backend writes for a snapshot. -/
def dbRowOf (s : Stats) (nowIso : String) : DbRow :=
  { timestamp := jsOrStr s.timestamp nowIso,
    member_count := s.memberCount,
    total_channels := s.totalChannels,
    total_capacity := s.totalCapacity,
    block_height := jsOrNullInt s.blockHeight,
    source := jsOrStr s.source "Amboss.space" }

/-- The JSON object `storeStats` of the file backend writes for a snapshot. -/
def fileRowOf (s : Stats) (nowIso : String) : FileData :=
  { timestamp := jsOrStr s.timestamp nowIso,
    memberCount := s.memberCount,
    totalChannels := s.totalChannels,
    totalCapacity := s.totalCapacity,
    blockHeight := jsOrNullInt s.blockHeight,
    source := jsOrStr s.source "Amboss.space",
    storedAt := nowIso }

/-- The range row the database backend produces for a stored row. -/
def rangeRowOfDb (k : String) (r : DbRow) : RangeRowD :=
  { date := k,
    timestamp := r.timestamp,
    memberCount := r.member_count,
    totalChannels := r.total_channels,
    totalCapacity := r.total_capacity,
    blockHeight := r.block_height,
    source := r.source }

/-- JS `s.endsWith(suffix)`. -/
def strEndsWith (s suffix : String) : Bool :=
  s.data.reverse.take suffix.data.length == suffix.data.reverse

/-- JS `file.replace('.json', '')` for names whose only occurrence of
`".json"` is the final extension (true of every name `getFilename`
produces): drop the last five characters. -/
def stripJsonExt (s : String) : String :=
  String.mk (s.data.take (s.data.length - 5))

/-- JS `new Date(dateStr)` for the canonical `YYYY-MM-DD` names written by
`getFilename`: split on `-`, parse the three segments, UTC midnight of that
civil date; anything else is an Invalid Date (= `none`). -/
def parseISODate (s : String) : Option JSDate :=
  match (jsSplit s '-').map jsParseInt with
  | [some y, some m, some d] =>
    some { year := y, month0 := (m - 1).toNat, day := d.toNat }
  | _ => none

/-- `cleanupOldData()` of the file store (`src/unnamed/part_006:152-183`) on
a UTC runtime.  `new Date()` is `today` at `msOfDay` milliseconds past UTC
midnight; `setDate(getDate() - RETENTION_DAYS)` shifts the calendar day but
KEEPS the time-of-day, so the cutoff is the instant
`toOrdinal (today - retentionDays) * msPerDay + msOfDay`; each stored file's
date (`new Date(dateStr)`) is a UTC-midnight instant; `fileDate < cutoffDate`
compares the two instants.  Files not ending in `.json` are skipped (kept and
not counted), as are unparsable names; the pair is (remaining store, number
of files deleted). -/
def cleanupOldData_file (store : List (String × FileData)) (today : JSDate)
    (msOfDay : Int) (retentionDays : Int) : List (String × FileData) × Nat :=
  let cutoffMs := toOrdinal (addDays today (-retentionDays)) * msPerDay + msOfDay
  let shouldDelete : String × FileData → Bool := fun kv =>
    strEndsWith kv.1 ".json" &&
      (match parseISODate (stripJsonExt kv.1) with
       | some fileDate => decide (toOrdinal fileDate * msPerDay < cutoffMs)
       | none => false)
  (store.filter (fun kv => !shouldDelete kv),
   (store.filter shouldDelete).length)

/-- Projection of the stored file object onto the stats fields that the
relational `loadStats` also returns (everything except `storedAt`). -/
def fileDataStats (f : FileData) : Stats :=
  { timestamp := f.timestamp, memberCount := f.memberCount,
    totalChannels := f.totalChannels, totalCapacity := f.totalCapacity,
    blockHeight := f.blockHeight, source := f.source }

def insertStr (s : String) : List String → List String
  | [] => [s]
  | x :: xs => if strLt x s then x :: insertStr s xs else s :: x :: xs

/-- JS `Array.prototype.sort()` on the date strings, as an insertion sort on
the lexicographic order. -/
def sortStrings : List String → List String
  | [] => []
  | x :: xs => insertStr x (sortStrings xs)

/-- `getAvailableDates()` of the file store (`src/unnamed/part_006:133-147`):
list the directory, keep `.json` files, strip the extension, sort. -/
def getAvailableDates_file (store : List (String × FileData)) : List String :=
  sortStrings (((store.map (fun kv => kv.1)).filter
    (fun f => strEndsWith f ".json")).map stripJsonExt)

/-- `getLatestStats()` of the file store (`src/unnamed/part_006:189-207`):
take the last available date (already stripped of `.json`), load it through
`loadStats(new Date(latestDate))`, and return `{ date: latestDate, ...stats }`
— this `date` field carries no extension, and the spread keeps `storedAt`. -/
def getLatestStats_file (store : List (String × FileData)) : Option RangeRowF :=
  match (getAvailableDates_file store).getLast? with
  | none => none
  | some latest =>
    match parseISODate latest with
    | none => none
    | some d =>
      match loadStats_file store d with
      | none => none
      | some stats =>
        some { date := latest, timestamp := stats.timestamp,
               memberCount := stats.memberCount,
               totalChannels := stats.totalChannels,
               totalCapacity := stats.totalCapacity,
               blockHeight := stats.blockHeight,
               source := stats.source, storedAt := stats.storedAt }

/-- `getLatestStats()` of the database store (`src/unnamed/part_007:177-203`):
`SELECT * … ORDER BY date DESC LIMIT 1`, i.e. the last row of the ascending
sort; `row.TIMESTAMP` and `row.SOURCE` are undefined on this driver, so the
`||` falls through to the lowercase columns. -/
def getLatestStats_db (store : List (String × DbRow)) : Option RangeRowD :=
  ((sortRowsByDate store).getLast?).map (fun kv => rangeRowOfDb kv.1 kv.2)

/-- `exportToCSV(startDate, endDate)` of the file store
(`src/unnamed/part_006:228-268`, textually identical to the relational one
but reading the file backend's range rows, whose `date` field keeps the
`.json` extension). -/
def exportToCSV_file (store : List (String × FileData)) (startD endD : JSDate) :
    String :=
  let stats := loadStatsRange_file store startD endD
  if stats.isEmpty then "No data available for the specified date range"
  else
    let headers := ["Date", "Timestamp", "Member Count", "Total Channels",
      "Total Capacity (BTC)", "Block Height", "Source"]
    let rows := stats.map (fun st =>
      [st.date, st.timestamp, toString st.memberCount,
       toString st.totalChannels, toString st.totalCapacity,
       jsOrEmptyStr st.blockHeight, st.source])
    jsJoin "\n" ((headers :: rows).map (fun row =>
      jsJoin "," (row.map (fun field => "\"" ++ field ++ "\""))))

/-- 2025-02-04 (the concrete "today" of the eviction instances; 400 days
earlier is 2024-01-01). -/
def demoToday : JSDate := { year := 2025, month0 := 1, day := 4 }

/-- 2024-01-16 (the day after `demoDate`, for two-day range instances). -/
def demoDate2 : JSDate := { year := 2024, month0 := 0, day := 16 }

/-- A two-snapshot file store: `statsFull` stored for 2024-01-15 and
`statsBh0` stored for 2024-01-16. -/
def demoFileStore2 : List (String × FileData) :=
  storeStats_file (storeStats_file [] statsFull demoDate "N") statsBh0
    demoDate2 "N2"

/-- The same two snapshots stored through the relational backend. -/
def demoDbStore2 : List (String × DbRow) :=
  storeStats_db (storeStats_db [] statsFull demoDate "N") statsBh0
    demoDate2 "N2"

/-! ## Helper lemmas -/

theorem charListLt_self : ∀ l : List Char, charListLt l l = false
  | [] => rfl
  | a :: as => by simp [charListLt, lt_irrefl, charListLt_self as]

theorem strLt_self (s : String) : strLt s s = false := charListLt_self s.data

theorem str_append_assoc (a b c : String) : a ++ b ++ c = a ++ (b ++ c) := by
  cases a; cases b; cases c
  exact congrArg String.mk (List.append_assoc _ _ _)

theorem find?_beq_self_of_mem {a : Int} : ∀ {l : List Int}, a ∈ l →
    l.find? (fun x => a == x) = some a
  | [], h => absurd h (List.not_mem_nil a)
  | b :: bs, h => by
    by_cases hab : a = b
    · subst hab
      exact List.find?_cons_of_pos _ (by simp)
    · have hbs : a ∈ bs := by
        rcases List.mem_cons.mp h with h1 | h1
        · exact absurd h1 hab
        · exact h1
      rw [List.find?_cons_of_neg _ (by simp [hab])]
      exact find?_beq_self_of_mem hbs

theorem find?_update_of_any (k : String) (row : DbRow) :
    ∀ store : List (String × DbRow), store.any (fun kv => kv.1 = k) = true →
    (store.map (fun kv => if kv.1 = k then (k, row) else kv)).find?
      (fun kv => kv.1 = k) = some (k, row)
  | [], h => by simp at h
  | x :: xs, h => by
    by_cases hx : x.1 = k
    · rw [List.map_cons, if_pos hx]
      exact List.find?_cons_of_pos _ (by simp)
    · have h' := h
      simp only [List.any_cons, Bool.or_eq_true, decide_eq_true_eq] at h'
      have hxs : xs.any (fun kv => kv.1 = k) = true := by
        rcases h' with h1 | h1
        · exact absurd h1 hx
        · exact h1
      rw [List.map_cons, if_neg hx, List.find?_cons_of_neg _ (by simp [hx])]
      exact find?_update_of_any k row xs hxs

theorem find?_append_of_not_any (k : String) (row : DbRow) :
    ∀ store : List (String × DbRow), store.any (fun kv => kv.1 = k) = false →
    (store ++ [(k, row)]).find? (fun kv => kv.1 = k) = some (k, row)
  | [], _ => by simp [List.find?]
  | x :: xs, h => by
    have h' := h
    simp only [List.any_cons, Bool.or_eq_false_iff, decide_eq_false_iff_not] at h'
    rw [List.cons_append, List.find?_cons_of_neg _ (by simp [h'.1])]
    exact find?_append_of_not_any k row xs h'.2

theorem find?_dbUpsert (store : List (String × DbRow)) (k : String)
    (row : DbRow) :
    (dbUpsert store k row).find? (fun kv => kv.1 = k) = some (k, row) := by
  unfold dbUpsert
  by_cases hany : store.any (fun kv => kv.1 = k) = true
  · rw [if_pos hany]
    exact find?_update_of_any k row store hany
  · have hf : store.any (fun kv => kv.1 = k) = false := by
      cases hb : store.any (fun kv => kv.1 = k) with
      | true => exact absurd hb hany
      | false => rfl
    rw [if_neg hany]
    exact find?_append_of_not_any k row store hf

theorem loadStats_db_after_store (store : List (String × DbRow)) (s : Stats)
    (d : JSDate) (nowIso : String) :
    loadStats_db (storeStats_db store s d nowIso) d =
      some { timestamp := jsOrStr s.timestamp nowIso,
             memberCount := s.memberCount,
             totalChannels := s.totalChannels,
             totalCapacity := s.totalCapacity,
             blockHeight := jsOrNullInt s.blockHeight,
             source := jsOrStr s.source "Amboss.space" } := by
  unfold loadStats_db storeStats_db
  rw [find?_dbUpsert]
  rfl

theorem length_filter_split {α : Type} (p : α → Bool) (l : List α) :
    l.length = (l.filter (fun a => !(p a))).length + (l.filter p).length := by
  induction l with
  | nil => rfl
  | cons x xs ih => by_cases hp : p x = true <;> simp [List.filter, hp, ih] <;> omega

/-! ## Claim theorems -/

/-- C1 (counterexample): the claim as stated is false on the code.  An enabled
schedule with `time = "16:30"` and no day constraint does NOT match at
16:30 UTC, and DOES match at 16:00 UTC — at an instant whose UTC minute (0)
differs from the configured minute (30). -/
theorem matchesSchedule_minute_counterexample :
    matchesSchedule sched1630 now163000 = false ∧
    matchesSchedule sched1630 now160000 = true := by decide

/-- C1 (amended): `matchesSchedule` returns `true` only when `now`'s UTC hour
equals the hour parsed from `schedule.time` AND `now`'s UTC minute is `0`; the
configured minute is parsed but never compared.  In particular a schedule with
time `"16:30"` matches at 16:00 UTC and does not match at 16:30 UTC. -/
theorem matchesSchedule_hour_and_minute_zero :
    (∀ (schedule : Schedule) (now : UTCNow),
       matchesSchedule schedule now = true →
       jsNumber ((jsSplit schedule.time ':').getD 0 "") = some now.utcHours ∧
       now.utcMinutes = 0)
    ∧ matchesSchedule sched1630 now160000 = true
    ∧ matchesSchedule sched1630 now163000 = false := by
  refine ⟨?_, by decide, by decide⟩
  intro schedule now h
  cases hdec : decide (jsNumber ((jsSplit schedule.time ':').getD 0 "") =
      some now.utcHours ∧ now.utcMinutes = 0) with
  | true => exact of_decide_eq_true hdec
  | false =>
    exfalso
    simp only [matchesSchedule] at h
    simp only [hdec] at h
    simp at h

/-- C1 (witness): a schedule that does match (`"16:00"` at 16:00 UTC)
satisfies the amended necessity condition. -/
theorem matchesSchedule_hour_and_minute_zero_witness :
    matchesSchedule sched1600 now160000 = true ∧
    (jsNumber ((jsSplit sched1600.time ':').getD 0 "") =
       some now160000.utcHours ∧
     now160000.utcMinutes = 0) :=
  ⟨by decide,
   matchesSchedule_hour_and_minute_zero.1 sched1600 now160000 (by decide)⟩

/-- C3 (counterexample): `parseTime` does not fail on out-of-range or
non-numeric segments — it returns the raw `parseInt` results: `"99:99"` gives
the pair (99, 99) and `"ab:10"` gives hour `NaN`, minute `10`.  No
`MalformedTimeError` exists anywhere in the code. -/
theorem parseTime_counterexample :
    parseTime "99:99" = { minute := some 99, hour := some 99 } ∧
    parseTime "ab:10" = { minute := some 10, hour := none } := by decide

set_option maxRecDepth 10000 in
/-- C3 (amended): `parseTime` performs no validation and cannot fail: it
returns the base-10 `parseInt` of each segment unchanged (out-of-range values
such as `"99:99"` come back as (99, 99), a non-numeric segment comes back as
`NaN`); for every valid zero-padded `HH:MM` string it round-trips to the
(hour, minute) pair used to construct it. -/
theorem parseTime_no_validation_roundtrip :
    (∀ h : Nat, h < 24 → ∀ m : Nat, m < 60 →
       parseTime (mkTimeString h m) = { minute := some m, hour := some h })
    ∧ parseTime "99:99" = { minute := some 99, hour := some 99 }
    ∧ parseTime "ab:10" = { minute := some 10, hour := none } :=
  ⟨by decide, by decide, by decide⟩

/-- C3 (witness): the round-trip at the concrete pair (16, 30). -/
theorem parseTime_no_validation_roundtrip_witness :
    parseTime (mkTimeString 16 30) = { minute := some 30, hour := some 16 } :=
  parseTime_no_validation_roundtrip.1 16 (by decide) 30 (by decide)

/-- C10: for an expiry strictly in the past by less than 24 hours,
`checkKeyExpiration` with the default thresholds `[7, 3, 1]` does not warn:
the ceiling of the negative fractional day count is `0`, which matches no
threshold and is not `< 0`, so neither the warning nor the expired branch
fires. -/
theorem checkKeyExpiration_just_expired_no_warn :
    ∀ expiryMs nowMs : Int, 0 < nowMs - expiryMs → nowMs - expiryMs < msPerDay →
      checkKeyExpiration expiryMs nowMs [7, 3, 1] =
        { shouldWarn := false, daysUntilExpiry := some 0, urgency := none,
          expired := false } := by
  intro expiryMs nowMs h1 h2
  have hms : msPerDay = 86400000 := by norm_num
  rw [hms] at h2
  have hc : ceilDiv (expiryMs - nowMs) msPerDay = 0 := by
    unfold ceilDiv
    have h3 : (0 : Int) ≤ -(expiryMs - nowMs) := by omega
    have h4 : -(expiryMs - nowMs) < msPerDay := by
      rw [hms]
      omega
    rw [Int.fdiv_eq_ediv _ (by norm_num)]
    rw [Int.ediv_eq_zero_of_lt h3 h4]
    rfl
  unfold checkKeyExpiration
  rw [hc]
  decide

/-- C10 (witness): half a day past expiry, no warning is produced. -/
theorem checkKeyExpiration_just_expired_no_warn_witness :
    checkKeyExpiration 0 43200000 [7, 3, 1] =
      { shouldWarn := false, daysUntilExpiry := some 0, urgency := none,
        expired := false } :=
  checkKeyExpiration_just_expired_no_warn 0 43200000 (by decide) (by decide)

/-- C7: `getTrendIndicator` classifies exactly as the claim states:
`🚀` (strong growth) iff the change exceeds 5, `📈` (growth) iff it is in
(0, 5], `➡️` (flat) iff it is 0, `📊` (decline) iff it is in [-5, 0), and
`📉` (strong decline) iff it is below -5; in particular exactly 5 is growth
and exactly 0 is flat. -/
theorem getTrendIndicator_buckets :
    (∀ p : ℚ,
      (getTrendIndicator p = "🚀" ↔ 5 < p) ∧
      (getTrendIndicator p = "📈" ↔ 0 < p ∧ p ≤ 5) ∧
      (getTrendIndicator p = "➡️" ↔ p = 0) ∧
      (getTrendIndicator p = "📊" ↔ -5 ≤ p ∧ p < 0) ∧
      (getTrendIndicator p = "📉" ↔ p < -5))
    ∧ getTrendIndicator 5 = "📈" ∧ getTrendIndicator 0 = "➡️" := by
  refine ⟨?_, by decide, by decide⟩
  intro p
  unfold getTrendIndicator
  split_ifs with h1 h2 h3 h4
  · exact ⟨iff_of_true rfl h1,
      iff_of_false (by decide) (fun hc => by linarith [hc.2]),
      iff_of_false (by decide) (fun hc => by linarith),
      iff_of_false (by decide) (fun hc => by linarith [hc.2]),
      iff_of_false (by decide) (fun hc => by linarith)⟩
  · exact ⟨iff_of_false (by decide) h1,
      iff_of_true rfl ⟨h2, by linarith⟩,
      iff_of_false (by decide) (fun hc => by linarith),
      iff_of_false (by decide) (fun hc => by linarith [hc.2]),
      iff_of_false (by decide) (fun hc => by linarith)⟩
  · exact ⟨iff_of_false (by decide) h1,
      iff_of_false (by decide) (fun hc => absurd hc.1 h2),
      iff_of_false (by decide) (fun hc => by rw [hc] at h3; linarith),
      iff_of_false (by decide) (fun hc => by linarith [hc.1]),
      iff_of_true rfl h3⟩
  · exact ⟨iff_of_false (by decide) h1,
      iff_of_false (by decide) (fun hc => absurd hc.1 h2),
      iff_of_false (by decide) (fun hc => by rw [hc] at h4; linarith),
      iff_of_true rfl ⟨by push_neg at h3; linarith, h4⟩,
      iff_of_false (by decide) h3⟩
  · have hp0 : p = 0 := by
      push_neg at h1 h2 h3 h4
      linarith
    exact ⟨iff_of_false (by decide) h1,
      iff_of_false (by decide) (fun hc => absurd hc.1 h2),
      iff_of_true rfl hp0,
      iff_of_false (by decide) (fun hc => by linarith [hc.2]),
      iff_of_false (by decide) h3⟩

/-- C4 (counterexample): the claim as stated fails for a configured threshold
of `0`.  With thresholds `[0]` and `expiry = now`, `daysUntilExpiry = 0`
exactly equals a configured threshold, yet `shouldWarn` is `false`: the
source's `if (warningDay)` is a JS truthiness test, and the found value `0`
is falsy. -/
theorem checkKeyExpiration_zero_threshold_counterexample :
    ceilDiv (0 - 0) msPerDay ∈ ([0] : List Int) ∧
    (checkKeyExpiration 0 0 [0]).shouldWarn = false := by decide

/-- C4 (amended): when `daysUntilExpiry = ceil((expiry − now) / 1 day)`
exactly equals a configured NONZERO threshold, `checkKeyExpiration` returns
`shouldWarn = true` with urgency `getUrgencyLevel` of that threshold
(`≤1 → critical`, `≤3 → high`, `≤7 → medium`, else `low`); with thresholds
`[7,3,1]`, expiry exactly 7 days ahead yields urgency `"medium"`, and expiry
one day in the past yields `shouldWarn = true`, urgency `"expired"`. -/
theorem checkKeyExpiration_threshold_warns :
    (∀ (expiryMs nowMs : Int) (ws : List Int),
       ceilDiv (expiryMs - nowMs) msPerDay ∈ ws →
       ceilDiv (expiryMs - nowMs) msPerDay ≠ 0 →
       (checkKeyExpiration expiryMs nowMs ws).shouldWarn = true ∧
       (checkKeyExpiration expiryMs nowMs ws).urgency =
         some (getUrgencyLevel (ceilDiv (expiryMs - nowMs) msPerDay)))
    ∧ (∀ nowMs : Int,
        checkKeyExpiration (nowMs + 7 * msPerDay) nowMs [7, 3, 1] =
          { shouldWarn := true, daysUntilExpiry := some 7,
            urgency := some "medium", expired := false })
    ∧ (∀ nowMs : Int,
        checkKeyExpiration (nowMs - msPerDay) nowMs [7, 3, 1] =
          { shouldWarn := true, daysUntilExpiry := some 0,
            urgency := some "expired", expired := true }) := by
  refine ⟨?_, ?_, ?_⟩
  · intro expiryMs nowMs ws hmem hne
    simp only [checkKeyExpiration]
    rw [find?_beq_self_of_mem hmem]
    simp [hne]
  · intro nowMs
    have he : nowMs + 7 * msPerDay - nowMs = 7 * msPerDay := by ring
    unfold checkKeyExpiration
    rw [he]
    decide
  · intro nowMs
    have he : nowMs - msPerDay - nowMs = -msPerDay := by ring
    unfold checkKeyExpiration
    rw [he]
    decide

/-- C4 (witness): with thresholds `[7,3,1]` and expiry exactly 7 days ahead
of `now = 0`, the amended warning property holds. -/
theorem checkKeyExpiration_threshold_warns_witness :
    (checkKeyExpiration (7 * msPerDay) 0 [7, 3, 1]).shouldWarn = true ∧
    (checkKeyExpiration (7 * msPerDay) 0 [7, 3, 1]).urgency =
      some (getUrgencyLevel (ceilDiv (7 * msPerDay - 0) msPerDay)) :=
  checkKeyExpiration_threshold_warns.1 (7 * msPerDay) 0 [7, 3, 1]
    (by decide) (by decide)

/-- C5 (counterexample): a `put` followed by a `get` for the same date does
NOT always return a snapshot equal to what was stored: for a snapshot whose
`blockHeight` is `0`, `storeStats` persists `null` (the JS `|| null`
coercion), so the loaded snapshot differs from the stored one. -/
theorem store_then_load_counterexample :
    loadStats_db (storeStats_db [] statsBh0 demoDate "N") demoDate ≠
      some statsBh0 := by decide

/-- C5 (amended): for every snapshot whose `timestamp` and `source` are
non-empty and whose `blockHeight` is not `0` (so none of the JS falsy-default
coercions in `storeStats` rewrite a field), `put` followed by `get` for the
same date returns exactly the stored snapshot; and after two `put`s to the
same date, `get` returns the second snapshot only (last-write-wins
overwrite). -/
theorem store_then_load_roundtrip :
    (∀ (store : List (String × DbRow)) (s : Stats) (d : JSDate)
       (nowIso : String),
       s.timestamp ≠ "" → s.source ≠ "" → s.blockHeight ≠ some 0 →
       loadStats_db (storeStats_db store s d nowIso) d = some s)
    ∧ (∀ (store : List (String × DbRow)) (s1 s2 : Stats) (d : JSDate)
         (n1 n2 : String),
       s2.timestamp ≠ "" → s2.source ≠ "" → s2.blockHeight ≠ some 0 →
       loadStats_db (storeStats_db (storeStats_db store s1 d n1) s2 d n2) d =
         some s2) := by
  have key : ∀ (store : List (String × DbRow)) (s : Stats) (d : JSDate)
      (nowIso : String),
      s.timestamp ≠ "" → s.source ≠ "" → s.blockHeight ≠ some 0 →
      loadStats_db (storeStats_db store s d nowIso) d = some s := by
    intro store s d nowIso ht hs hb
    rw [loadStats_db_after_store]
    have h1 : jsOrStr s.timestamp nowIso = s.timestamp := by
      unfold jsOrStr
      rw [if_neg ht]
    have h2 : jsOrStr s.source "Amboss.space" = s.source := by
      unfold jsOrStr
      rw [if_neg hs]
    have h3 : jsOrNullInt s.blockHeight = s.blockHeight := by
      cases hv : s.blockHeight with
      | none => rfl
      | some n =>
        have hn : n ≠ 0 := by
          intro h0
          exact hb (by rw [hv, h0])
        simp [jsOrNullInt, hn]
    rw [h1, h2, h3]
  exact ⟨key, fun store s1 s2 d n1 n2 ht hs hb =>
    key (storeStats_db store s1 d n1) s2 d n2 ht hs hb⟩

/-- C5 (witness): the round-trip at a concrete fully-truthy snapshot, and the
overwrite at two concrete snapshots. -/
theorem store_then_load_roundtrip_witness :
    loadStats_db (storeStats_db [] statsFull demoDate "N") demoDate =
      some statsFull :=
  store_then_load_roundtrip.1 [] statsFull demoDate "N"
    (by decide) (by decide) (by decide)

set_option maxRecDepth 40000 in
/-- C9: a snapshot with `blockHeight` exactly `0` is persisted with
`block_height = null` (the falsy value is coerced by `|| null`), so a
subsequent load returns `null` rather than `0`; and `exportToCSV` renders a
stored `block_height` of `0` as the empty string (the `|| ''` in the row
builder). -/
theorem blockHeight_zero_coerced_to_null :
    (∀ (store : List (String × DbRow)) (s : Stats) (d : JSDate) (n : String),
       s.blockHeight = some 0 →
       (loadStats_db (storeStats_db store s d n) d).map Stats.blockHeight =
         some none)
    ∧ exportToCSV_db [("2024-01-15", rowBh0)] demoDate demoDate =
        "\"Date\",\"Timestamp\",\"Member Count\",\"Total Channels\",\"Total Capacity (BTC)\",\"Block Height\",\"Source\"\n\"2024-01-15\",\"2024-01-15T12:00:00.000Z\",\"100\",\"50\",\"21\",\"\",\"Amboss.space\"" := by
  constructor
  · intro store s d n hb
    rw [loadStats_db_after_store]
    simp [jsOrNullInt, hb]
  · decide

/-- C9 (witness): storing the concrete zero-block-height snapshot and loading
it back gives `blockHeight = null`. -/
theorem blockHeight_zero_coerced_to_null_witness :
    (loadStats_db (storeStats_db [] statsBh0 demoDate "N") demoDate).map
      Stats.blockHeight = some none :=
  blockHeight_zero_coerced_to_null.1 [] statsBh0 demoDate "N" (by decide)

/-- C6 (counterexample): the file backend, which the claim also cites,
violates "deletes exactly those strictly before `today - retentionDays`".
At 2025-02-04 09:00 UTC with retention 400, the snapshot dated exactly
2024-01-01 = today − 400 days — NOT strictly before the cutoff day — is
deleted (count 1): the cutoff instant keeps the invocation's time-of-day
while stored file dates are UTC midnight. -/
theorem cleanupOldData_boundary_counterexample :
    parseISODate (stripJsonExt "2024-01-01.json") =
      some (addDays demoToday (-400)) ∧
    cleanupOldData_file [("2024-01-01.json", fileRowOf statsFull "N")]
      demoToday 32400000 400 = ([], 1) := by decide

/-- C6 (amended): both backends return the number deleted.  The relational
backend deletes exactly the records whose date is strictly before
`today - retentionDays` (exact calendar subtraction, compared on
`YYYY-MM-DD` strings); with retention 400 at today = 2025-02-04 it deletes
the snapshot dated 401 days ago (2023-12-31) and retains the one dated 399
days ago (2024-01-02).  The file backend compares each file's UTC-midnight
instant with a cutoff instant that keeps the invocation's time-of-day
(`msOfDay` past midnight), so it keeps a dated file iff that cutoff instant
is at or before the file's midnight; a file dated exactly
`today - retentionDays` is kept iff `msOfDay ≤ 0`, i.e. it is ALSO deleted
whenever the job runs after midnight; at 2025-02-04 09:00 UTC it deletes the
snapshots dated 2023-12-31 and 2024-01-01 and retains 2024-01-02, returning
2. -/
theorem cleanupOldData_evicts_strictly_older :
    (∀ (store : List (String × DbRow)) (today : JSDate) (retentionDays : Int)
       (kv : String × DbRow),
       kv ∈ (cleanupOldData_db store today retentionDays).1 ↔
         kv ∈ store ∧
           strLt kv.1 (formatDate (addDays today (-retentionDays))) = false)
    ∧ (∀ (store : List (String × DbRow)) (today : JSDate)
         (retentionDays : Int),
       store.length = (cleanupOldData_db store today retentionDays).1.length +
         (cleanupOldData_db store today retentionDays).2)
    ∧ cleanupOldData_db [("2023-12-31", rowBh0), ("2024-01-02", rowBh0)]
        demoToday 400 = ([("2024-01-02", rowBh0)], 1)
    ∧ (∀ (store : List (String × FileData)) (today : JSDate)
         (msOfDay retentionDays : Int) (kv : String × FileData) (fd : JSDate),
       strEndsWith kv.1 ".json" = true →
       parseISODate (stripJsonExt kv.1) = some fd →
       (kv ∈ (cleanupOldData_file store today msOfDay retentionDays).1 ↔
         kv ∈ store ∧
           toOrdinal (addDays today (-retentionDays)) * msPerDay + msOfDay ≤
             toOrdinal fd * msPerDay))
    ∧ (∀ (store : List (String × FileData)) (today : JSDate)
         (msOfDay retentionDays : Int),
       store.length =
         (cleanupOldData_file store today msOfDay retentionDays).1.length +
           (cleanupOldData_file store today msOfDay retentionDays).2)
    ∧ (∀ (store : List (String × FileData)) (today : JSDate)
         (msOfDay retentionDays : Int) (kv : String × FileData),
       strEndsWith kv.1 ".json" = true →
       parseISODate (stripJsonExt kv.1) =
         some (addDays today (-retentionDays)) →
       (kv ∈ (cleanupOldData_file store today msOfDay retentionDays).1 ↔
         kv ∈ store ∧ msOfDay ≤ 0))
    ∧ cleanupOldData_file
        [("2023-12-31.json", fileRowOf statsFull "N"),
         ("2024-01-01.json", fileRowOf statsFull "N"),
         ("2024-01-02.json", fileRowOf statsFull "N")]
        demoToday 32400000 400 =
        ([("2024-01-02.json", fileRowOf statsFull "N")], 2) := by
  have hgen : ∀ (store : List (String × FileData)) (today : JSDate)
      (msOfDay retentionDays : Int) (kv : String × FileData) (fd : JSDate),
      strEndsWith kv.1 ".json" = true →
      parseISODate (stripJsonExt kv.1) = some fd →
      (kv ∈ (cleanupOldData_file store today msOfDay retentionDays).1 ↔
        kv ∈ store ∧
          toOrdinal (addDays today (-retentionDays)) * msPerDay + msOfDay ≤
            toOrdinal fd * msPerDay) := by
    intro store today msOfDay retentionDays kv fd hend hparse
    simp [cleanupOldData_file, List.mem_filter, hend, hparse, not_lt]
  refine ⟨?_, ?_, by decide, hgen, ?_, ?_, by decide⟩
  · intro store today retentionDays kv
    unfold cleanupOldData_db
    simp [List.mem_filter]
  · intro store today retentionDays
    exact length_filter_split
      (fun kv => strLt kv.1 (formatDate (addDays today (-retentionDays)))) store
  · intro store today msOfDay retentionDays
    simp only [cleanupOldData_file]
    exact length_filter_split _ store
  · intro store today msOfDay retentionDays kv hend hparse
    rw [hgen store today msOfDay retentionDays kv _ hend hparse]
    constructor
    · rintro ⟨hm, hle⟩
      exact ⟨hm, by linarith⟩
    · rintro ⟨hm, hle⟩
      exact ⟨hm, by linarith⟩

/-- C6 (witness): a file dated 399 days before today = 2025-02-04, checked at
09:00 UTC, satisfies the keep-iff-cutoff-at-or-before-midnight condition. -/
theorem cleanupOldData_evicts_strictly_older_witness :
    ("2024-01-02.json", fileRowOf statsFull "N") ∈
      (cleanupOldData_file [("2024-01-02.json", fileRowOf statsFull "N")]
        demoToday 32400000 400).1 ↔
    ("2024-01-02.json", fileRowOf statsFull "N") ∈
        [("2024-01-02.json", fileRowOf statsFull "N")] ∧
      toOrdinal (addDays demoToday (-400)) * msPerDay + 32400000 ≤
        toOrdinal { year := 2024, month0 := 0, day := 2 } * msPerDay :=
  cleanupOldData_evicts_strictly_older.2.2.2.1
    [("2024-01-02.json", fileRowOf statsFull "N")] demoToday 32400000 400
    ("2024-01-02.json", fileRowOf statsFull "N")
    { year := 2024, month0 := 0, day := 2 } (by decide) (by decide)

theorem getFilename_eq_formatDate (d : JSDate) :
    getFilename d = formatDate d ++ ".json" := rfl

theorem storeStats_file_nil (s : Stats) (d : JSDate) (n : String) :
    storeStats_file [] s d n = [(getFilename d, fileRowOf s n)] := rfl

theorem storeStats_db_nil (s : Stats) (d : JSDate) (n : String) :
    storeStats_db [] s d n = [(formatDate d, dbRowOf s n)] := rfl

theorem loadStats_file_singleton (s : Stats) (d : JSDate) (n : String) :
    loadStats_file [(getFilename d, fileRowOf s n)] d =
      some (fileRowOf s n) := by
  unfold loadStats_file
  rw [List.find?_cons_of_pos _ (by simp)]
  rfl

theorem loadStatsRange_file_singleton (s : Stats) (d : JSDate) (n : String) :
    loadStatsRange_file (storeStats_file [] s d n) d d =
      [rangeRowOfFile d (fileRowOf s n)] := by
  rw [storeStats_file_nil]
  unfold loadStatsRange_file
  rw [Int.sub_self]
  show loadStatsRangeAuxF [(getFilename d, fileRowOf s n)] d d 1 = _
  unfold loadStatsRangeAuxF
  rw [if_pos (by simp [dateLE] : dateLE d d = true)]
  rw [loadStats_file_singleton]
  simp [loadStatsRangeAuxF]

theorem loadStatsRange_db_singleton (s : Stats) (d : JSDate) (n : String) :
    loadStatsRange_db (storeStats_db [] s d n) d d =
      [rangeRowOfDb (formatDate d) (dbRowOf s n)] := by
  rw [storeStats_db_nil]
  unfold loadStatsRange_db
  simp [List.filter, strLt_self, sortRowsByDate, insertRowByDate, rangeRowOfDb]

/-- C8 (counterexample): the two store backends are NOT observationally
equivalent.  For the same snapshot stored for the same date through each
backend, `loadStatsRange` over that single day returns a `date` field of
`"2024-01-15.json"` from the file backend (its `getFilename` keeps the file
extension) but `"2024-01-15"` from the relational backend. -/
theorem backends_range_date_counterexample :
    (loadStatsRange_file (storeStats_file [] statsFull demoDate "N") demoDate
        demoDate).map (fun r => r.date) ≠
    (loadStatsRange_db (storeStats_db [] statsFull demoDate "N") demoDate
        demoDate).map (fun r => r.date) := by decide

set_option maxRecDepth 80000 in
/-- C8 (amended): the two backends agree on every stats field (timestamp,
memberCount, totalChannels, totalCapacity, blockHeight, source) — both apply
the same falsy-default coercions on write — but they are not observationally
equivalent, and the divergence is confined to the record envelope: (1) for
any snapshot stored at any date, the single-day `loadStatsRange` rows agree
on the stats fields while the file backend's `date` is the relational one's
with `".json"` appended; (2) for any snapshot stored at any date, `loadStats`
agrees on the stats projection while the file backend's result additionally
exposes the `storedAt` write time; (3) on a concrete two-snapshot store and a
two-day range, the rows again agree modulo the `".json"` suffix; (4) on that
store, `getLatestStats` agrees on BOTH the stats fields and the date (that
path strips the extension); (5) on a concrete one-snapshot store, the two
`exportToCSV` outputs are identical except for the Date column, which
carries `".json"` in the file backend. -/
theorem backends_agree_modulo_json_suffix :
    (∀ (s : Stats) (d : JSDate) (n : String),
      (loadStatsRange_file (storeStats_file [] s d n) d d).map
          (fun r => r.date) =
        (loadStatsRange_db (storeStats_db [] s d n) d d).map
          (fun r => r.date ++ ".json")
      ∧ (loadStatsRange_file (storeStats_file [] s d n) d d).map commonOfF =
          (loadStatsRange_db (storeStats_db [] s d n) d d).map commonOfD)
    ∧ (∀ (s : Stats) (d : JSDate) (n : String),
      (loadStats_file (storeStats_file [] s d n) d).map fileDataStats =
        loadStats_db (storeStats_db [] s d n) d
      ∧ (loadStats_file (storeStats_file [] s d n) d).map FileData.storedAt =
          some n)
    ∧ ((loadStatsRange_file demoFileStore2 demoDate demoDate2).map
          (fun r => r.date) =
        (loadStatsRange_db demoDbStore2 demoDate demoDate2).map
          (fun r => r.date ++ ".json")
      ∧ (loadStatsRange_file demoFileStore2 demoDate demoDate2).map commonOfF =
          (loadStatsRange_db demoDbStore2 demoDate demoDate2).map commonOfD)
    ∧ ((getLatestStats_file demoFileStore2).map (fun r => r.date) =
        (getLatestStats_db demoDbStore2).map (fun r => r.date)
      ∧ (getLatestStats_file demoFileStore2).map commonOfF =
          (getLatestStats_db demoDbStore2).map commonOfD)
    ∧ (exportToCSV_file (storeStats_file [] statsFull demoDate "N") demoDate
          demoDate =
        "\"Date\",\"Timestamp\",\"Member Count\",\"Total Channels\",\"Total Capacity (BTC)\",\"Block Height\",\"Source\"\n\"2024-01-15.json\",\"2024-01-15T12:00:00.000Z\",\"100\",\"50\",\"21\",\"800000\",\"Amboss.space\""
      ∧ exportToCSV_db (storeStats_db [] statsFull demoDate "N") demoDate
          demoDate =
        "\"Date\",\"Timestamp\",\"Member Count\",\"Total Channels\",\"Total Capacity (BTC)\",\"Block Height\",\"Source\"\n\"2024-01-15\",\"2024-01-15T12:00:00.000Z\",\"100\",\"50\",\"21\",\"800000\",\"Amboss.space\"") := by
  refine ⟨?_, ?_, by decide, by decide, by decide⟩
  · intro s d n
    rw [loadStatsRange_file_singleton, loadStatsRange_db_singleton]
    constructor
    · simp [rangeRowOfFile, rangeRowOfDb, getFilename_eq_formatDate]
    · simp [commonOfF, commonOfD, rangeRowOfFile, rangeRowOfDb, fileRowOf,
        dbRowOf]
  · intro s d n
    rw [storeStats_file_nil, loadStats_file_singleton,
      loadStats_db_after_store]
    constructor
    · simp [fileDataStats, fileRowOf]
    · simp [fileRowOf]

theorem isValidRange_digit_comma (c : Char) (n : Int) (rest : String)
    (hw : c.isWhitespace = false) (hm : c ≠ '-') (hp : c ≠ '+')
    (hd : c.isDigit = true) (hv : (jsDigitVal c : Int) = n)
    (h0 : 0 ≤ n) (h6 : n ≤ 6) :
    isValidRange (String.mk [c] ++ "," ++ rest) 0 6 = true := by
  have hdata : (String.mk [c] ++ "," ++ rest).data = c :: ',' :: rest.data := rfl
  have hne : ¬(String.mk [c] ++ "," ++ rest = "*") := by
    intro h
    have h2 := congrArg String.data h
    rw [hdata] at h2
    simp at h2
  have hpi : jsParseInt (String.mk [c] ++ "," ++ rest) = some n := by
    unfold jsParseInt
    rw [hdata, List.dropWhile_cons, hw]
    simp only [Bool.false_eq_true, if_false]
    rw [if_neg hm, if_neg hp]
    unfold digitsValue
    rw [List.takeWhile_cons, hd]
    simp only [if_true]
    rw [List.takeWhile_cons]
    rw [show Char.isDigit ',' = false from rfl]
    simp only [Bool.false_eq_true, if_false]
    simp [hv]
  unfold isValidRange
  rw [if_neg hne, hpi]
  simp [h0, h6]

/-- C2 (counterexample): `validateCronExpression` does NOT reject the
comma-list form emitted by `generateDailyCron`: for the daily schedule
16:30 on Monday and Tuesday, the generated expression `"30 16 * * 1,2"`
validates `true` — `parseInt("1,2", 10)` reads the digits before the comma
and returns `1`, which is in range. -/
theorem validateCron_comma_counterexample :
    generateDailyCron demoDaily = some "30 16 * * 1,2" ∧
    validateCronExpression "30 16 * * 1,2" = true := by decide

/-- C2 (amended): a field that is a comma-joined list whose LEADING integer
is in range passes `validateCronExpression`'s per-field check (`parseInt`
stops at the first comma), so the list-form day-of-week fields emitted by
`generateDailyCron` pass validation rather than fail it; a field fails only
when it is neither `*` nor prefixed by an in-range integer. -/
theorem validateCron_accepts_comma_lists :
    (∀ d : Nat, d ≤ 6 → ∀ rest : String,
       isValidRange (toString d ++ "," ++ rest) 0 6 = true)
    ∧ generateDailyCron demoDaily = some "30 16 * * 1,2"
    ∧ validateCronExpression "30 16 * * 1,2" = true := by
  refine ⟨?_, by decide, by decide⟩
  intro d hd rest
  interval_cases d
  · exact isValidRange_digit_comma '0' 0 rest (by decide) (by decide)
      (by decide) (by decide) (by decide) (by decide) (by decide)
  · exact isValidRange_digit_comma '1' 1 rest (by decide) (by decide)
      (by decide) (by decide) (by decide) (by decide) (by decide)
  · exact isValidRange_digit_comma '2' 2 rest (by decide) (by decide)
      (by decide) (by decide) (by decide) (by decide) (by decide)
  · exact isValidRange_digit_comma '3' 3 rest (by decide) (by decide)
      (by decide) (by decide) (by decide) (by decide) (by decide)
  · exact isValidRange_digit_comma '4' 4 rest (by decide) (by decide)
      (by decide) (by decide) (by decide) (by decide) (by decide)
  · exact isValidRange_digit_comma '5' 5 rest (by decide) (by decide)
      (by decide) (by decide) (by decide) (by decide) (by decide)
  · exact isValidRange_digit_comma '6' 6 rest (by decide) (by decide)
      (by decide) (by decide) (by decide) (by decide) (by decide)

/-- C2 (witness): the comma-list field `"1,2"` passes the 0–6 day-of-week
range check. -/
theorem validateCron_accepts_comma_lists_witness :
    isValidRange (toString 1 ++ "," ++ "2") 0 6 = true :=
  validateCron_accepts_comma_lists.1 1 (by decide) "2"
